import Mathlib

/-!
Verification of the federated-training round-simulation state machine of the
FedSecure AI repository (supabase edge functions, `federated-training` actions).

Two variants of the machine exist in the source:

* a *stateless* variant: the server holds no state; the caller resends
  `current_round` / `max_rounds` / `nodes` on every `advance` call and the
  server answers with the next state (`simulateRoundProgress`, a pure
  function of the request);
* a *stateful* variant: the server keeps an in-memory map from a round id to
  a `TrainingSession` record and mutates it in place on `advance` / `pause` /
  `resume`.

Both are embedded below.  JavaScript numbers are modelled as rationals
(`ℚ`); each call to `Math.random()` is modelled as reading the next value of
an explicit stream `g : ℕ → ℚ` of draws, with the hypothesis `0 ≤ g k < 1`
supplied where a theorem needs it; timestamps (`new Date().toISOString()`)
are modelled as an abstract `now : ℕ` argument.
-/

/-- Status of a simulated federated node (`'active' | 'syncing' | 'idle' | 'offline'`). -/
inductive NodeStatus where
  | active
  | syncing
  | idle
  | offline
deriving DecidableEq, Repr

/-- Status of a training session (`'pending' | 'running' | 'paused' | 'completed' | 'failed'`). -/
inductive SessionStatus where
  | pending
  | running
  | paused
  | completed
  | failed
deriving DecidableEq, Repr

/-- A simulated federated node record, as stored in a session. -/
structure FedNode where
  id : String
  name : String
  status : NodeStatus
  accuracy : ℚ
  samples : ℕ
  contribution : ℤ
deriving DecidableEq, Repr

/-- A training session record (the `trainingSessions` map values in the
stateful variant; the state echoed by the client in the stateless one). -/
structure Session where
  status : SessionStatus
  current_round : ℕ
  max_rounds : ℕ
  accuracy : ℚ
  loss : ℚ
  total_samples : ℕ
  nodes : List FedNode
  started_at : ℕ
  updated_at : ℕ
deriving DecidableEq, Repr

/-- The four seeded nodes returned by `generateNodes()` in the source. -/
def generateNodes : List FedNode :=
  [ ⟨"node1", "Node Alpha", NodeStatus.active, 925/1000, 15000, 0⟩,
    ⟨"node2", "Node Beta", NodeStatus.active, 941/1000, 18500, 0⟩,
    ⟨"node3", "Node Gamma", NodeStatus.syncing, 918/1000, 12000, 0⟩,
    ⟨"node4", "Node Delta", NodeStatus.idle, 932/1000, 16200, 0⟩ ]

/-- The per-node update performed inside the `nodes.map` of both
`simulateRoundProgress` variants.  `r1` is the status draw, `r2` the
accuracy-perturbation draw, `r3` the contribution draw (each one
`Math.random()` call, in source order). -/
def updateNode (r1 r2 r3 : ℚ) (node : FedNode) : FedNode :=
  { node with
    status :=
      if r1 < 7/10 then NodeStatus.active
      else if r1 < 9/10 then NodeStatus.syncing
      else NodeStatus.idle
    accuracy := min (99/100) (max (85/100) (node.accuracy + (r2 * (2/100) - 5/1000)))
    contribution := ⌊r3 * 100⌋ }

/-- Map `updateNode` over a node list, consuming three random draws per node
starting at stream index `j`. -/
def updateNodes (g : ℕ → ℚ) : ℕ → List FedNode → List FedNode
  | _, [] => []
  | j, n :: rest => updateNode (g j) (g (j + 1)) (g (j + 2)) n :: updateNodes g (j + 3) rest

/-- Result record of the stateless `simulateRoundProgress` (the object it
returns, spread into the HTTP response). -/
structure Progress where
  current_round : ℕ
  accuracy : ℚ
  loss : ℚ
  total_samples : ℕ
  nodes : List FedNode
  status : SessionStatus
deriving DecidableEq, Repr

/-- The stateless-variant `simulateRoundProgress(currentRound, maxRounds, nodes)`:
updates every node, sums the (unchanged) sample counts, computes the global
accuracy/loss curves for round `currentRound + 1` and the completion status. -/
def simulateRoundProgress (g : ℕ → ℚ) (currentRound maxRounds : ℕ)
    (nodes : List FedNode) : Progress :=
  let updatedNodes := updateNodes g 0 nodes
  let totalSamples := (updatedNodes.map FedNode.samples).sum
  let nextRound := currentRound + 1
  let k := 3 * nodes.length
  { current_round := nextRound
    accuracy :=
      min (98/100) (85/100 + ((nextRound : ℚ) / (maxRounds : ℚ)) * (12/100)
        + (g k * (2/100) - 1/100))
    loss :=
      max (2/100) (1/2 - ((nextRound : ℚ) / (maxRounds : ℚ)) * (45/100)
        + g (k + 1) * (5/100))
    total_samples := totalSamples
    nodes := updatedNodes
    status := if maxRounds ≤ nextRound then SessionStatus.completed else SessionStatus.running }

/-- The stateful-variant `simulateRoundProgress(session, roundNumber)`:
mutates the session's nodes, accuracy, loss, `current_round`,
`total_samples` and `updated_at`.  (The source also computes a
sample-weighted average of node accuracies into a local variable but never
uses it; it consumes no random draws, so it is omitted here.) -/
def simulateRoundProgressStateful (g : ℕ → ℚ) (now : ℕ) (s : Session)
    (roundNumber : ℕ) : Session :=
  let updatedNodes := updateNodes g 0 s.nodes
  let totalSamples := (updatedNodes.map FedNode.samples).sum
  let k := 3 * s.nodes.length
  { s with
    nodes := updatedNodes
    accuracy :=
      min (98/100) (85/100 + ((roundNumber : ℚ) / (s.max_rounds : ℚ)) * (12/100)
        + (g k * (2/100) - 1/100))
    loss :=
      max (2/100) (1/2 - ((roundNumber : ℚ) / (s.max_rounds : ℚ)) * (45/100)
        + g (k + 1) * (5/100))
    current_round := roundNumber
    total_samples := totalSamples
    updated_at := now }

/-- The request body of the stateless `advance` action
(`{ round_id, current_round, max_rounds, nodes, is_paused }`); absent JSON
fields are `none`. -/
structure AdvanceReq where
  round_id : Option String
  current_round : Option ℕ
  max_rounds : Option ℕ
  nodes : Option (List FedNode)
  is_paused : Bool
deriving DecidableEq, Repr

/-- JavaScript `a >= b` on possibly-undefined numbers: comparison with
`undefined` yields `false`. -/
def jsGe (a b : Option ℕ) : Bool :=
  match a, b with
  | some x, some y => y ≤ x
  | _, _ => false

/-- JavaScript `v || d` for a possibly-undefined number: `undefined` and `0`
are falsy, so both fall back to the default. -/
def orDefault (v : Option ℕ) (d : ℕ) : ℕ :=
  match v with
  | none => d
  | some 0 => d
  | some n => n

/-- Responses of the stateless variant's `advance` handler. -/
inductive StatelessResp where
  | badRequest (msg : String)
  | pausedEcho (round_id : String) (current_round max_rounds : Option ℕ)
      (nodes : Option (List FedNode)) (msg : String)
  | completedEcho (round_id : String) (current_round max_rounds : Option ℕ)
      (nodes : Option (List FedNode))
  | ok (round_id : String) (max_rounds : Option ℕ) (updated_at : ℕ) (p : Progress)
deriving DecidableEq, Repr

/-- True exactly on the success (round-simulated) response. -/
def StatelessResp.isSuccess : StatelessResp → Bool
  | StatelessResp.ok _ _ _ _ => true
  | _ => false

/-- The stateless `advance` action handler: rejects a missing `round_id`;
echoes the request state when `is_paused`; echoes with status `completed`
when `current_round >= max_rounds`; otherwise simulates the next round,
defaulting a falsy `current_round` to 0, a falsy `max_rounds` to 10 and
absent `nodes` to `generateNodes()`. -/
def advanceStateless (g : ℕ → ℚ) (now : ℕ) (req : AdvanceReq) : StatelessResp :=
  match req.round_id with
  | none => StatelessResp.badRequest "round_id is required"
  | some rid =>
    if req.is_paused then
      StatelessResp.pausedEcho rid req.current_round req.max_rounds req.nodes
        "Training is paused"
    else if jsGe req.current_round req.max_rounds then
      StatelessResp.completedEcho rid req.current_round req.max_rounds req.nodes
    else
      StatelessResp.ok rid req.max_rounds now
        (simulateRoundProgress g (orDefault req.current_round 0)
          (orDefault req.max_rounds 10) (req.nodes.getD generateNodes))

/-- The in-memory session map of the stateful variant. -/
abbrev Store := String → Option Session

/-- `trainingSessions.set(key, session)`. -/
def Store.set (store : Store) (key : String) (s : Session) : Store :=
  fun k => if k = key then some s else store k

/-- Responses of the stateful variant's handlers. -/
inductive StatefulResp where
  | badRequest (msg : String)
  | notFound (msg : String)
  | sessionResp (round_id : String) (s : Session) (message : Option String)
  | startResp (round_id : String) (s : Session)
  | ack (st : SessionStatus) (round_id : Option String)
deriving DecidableEq, Repr

/-- The session record built by the `start` handlers of both variants: a
fresh running session at round 0 with the seeded nodes, accuracy 0.85,
loss 0.5 and `total_samples: 61700`; a missing `max_rounds` body field
defaults to 10.  (The stateless variant returns this record to the caller
without storing it.) -/
def startSession (now : ℕ) (maxRoundsField : Option ℕ) : Session :=
  { status := SessionStatus.running
    current_round := 0
    max_rounds := maxRoundsField.getD 10
    accuracy := 85/100
    loss := 1/2
    total_samples := 61700
    nodes := generateNodes
    started_at := now
    updated_at := now }

/-- The stateful `start` action handler: stores the fresh session under the
generated round id (modelled as the argument `roundId`) and returns it. -/
def startStateful (now : ℕ) (roundId : String) (maxRoundsField : Option ℕ)
    (store : Store) : StatefulResp × Store :=
  (StatefulResp.startResp roundId (startSession now maxRoundsField),
   store.set roundId (startSession now maxRoundsField))

/-- The stateful `status` action handler: 400 on a missing `round_id`, 404
on an unknown one, otherwise the stored snapshot; the store is never
written. -/
def statusStateful (store : Store) (roundId : Option String) : StatefulResp :=
  match roundId with
  | none => StatefulResp.badRequest "round_id is required"
  | some rid =>
    match store rid with
    | none => StatefulResp.notFound "Training session not found"
    | some s => StatefulResp.sessionResp rid s none

/-- The stateful `advance` action handler: 400 on a missing `round_id`, 404
on an unknown one; on a paused session it echoes the stored session with a
`'Training is paused'` message; once `current_round >= max_rounds` it sets
status `completed` and echoes; otherwise it runs the simulator on
`current_round + 1`, marks `completed` when the new round reaches
`max_rounds`, and stores the result. -/
def advanceStateful (g : ℕ → ℚ) (now : ℕ) (store : Store)
    (roundId : Option String) : StatefulResp × Store :=
  match roundId with
  | none => (StatefulResp.badRequest "round_id is required", store)
  | some rid =>
    match store rid with
    | none => (StatefulResp.notFound "Training session not found", store)
    | some s =>
      if s.status = SessionStatus.paused then
        (StatefulResp.sessionResp rid s (some "Training is paused"), store)
      else if s.max_rounds ≤ s.current_round then
        let s2 := { s with status := SessionStatus.completed }
        (StatefulResp.sessionResp rid s2 none, store.set rid s2)
      else
        let s1 := simulateRoundProgressStateful g now s (s.current_round + 1)
        let s2 :=
          if s1.max_rounds ≤ s1.current_round then { s1 with status := SessionStatus.completed }
          else s1
        (StatefulResp.sessionResp rid s2 none, store.set rid s2)

/-- The stateful `pause` action handler: no `round_id` validation — it looks
the id up, sets status `paused` when a session is found, and always answers
`{ status: 'paused', round_id }`. -/
def pauseStateful (now : ℕ) (store : Store) (roundId : Option String) :
    StatefulResp × Store :=
  let store' :=
    match roundId with
    | none => store
    | some rid =>
      match store rid with
      | none => store
      | some s => store.set rid { s with status := SessionStatus.paused, updated_at := now }
  (StatefulResp.ack SessionStatus.paused roundId, store')

/-- The stateful `resume` action handler: no `round_id` validation — it sets
status `running` only when a session is found and currently paused, and
always answers `{ status: 'running', round_id }`. -/
def resumeStateful (now : ℕ) (store : Store) (roundId : Option String) :
    StatefulResp × Store :=
  let store' :=
    match roundId with
    | none => store
    | some rid =>
      match store rid with
      | none => store
      | some s =>
        if s.status = SessionStatus.paused then
          store.set rid { s with status := SessionStatus.running, updated_at := now }
        else store
  (StatefulResp.ack SessionStatus.running roundId, store')

/-- A sequence of stateful `advance` calls, each with its own random stream,
timestamp and `round_id` field, applied to the store in order. -/
def advanceMany : List ((ℕ → ℚ) × ℕ × Option String) → Store → Store
  | [], store => store
  | c :: rest, store => advanceMany rest (advanceStateful c.1 c.2.1 store c.2.2).2

/-- A concrete reachable store of the stateful variant: `start(max_rounds=3)`
under id `"r"`, three `advance` calls (reaching round 3 = `max_rounds`,
status `completed`), then `pause` — which, having no status precondition,
moves the completed session to `paused` while `current_round` stays at
`max_rounds`. -/
def pausedAtMaxStore : Store :=
  (pauseStateful 4
    ((advanceStateful (fun _ => 0) 3
      ((advanceStateful (fun _ => 0) 2
        ((advanceStateful (fun _ => 0) 1
          ((startStateful 0 "r" (some 3) (fun _ => none)).2) (some "r")).2)
        (some "r")).2)
      (some "r")).2)
    (some "r")).2

/-! ## Basic lemmas about the store and the simulators -/

theorem Store.set_self (store : Store) (rid : String) (s : Session) :
    Store.set store rid s rid = some s := by
  simp [Store.set]

theorem Store.set_other (store : Store) (rid : String) (s : Session) (k : String)
    (h : k ≠ rid) : Store.set store rid s k = store k := by
  simp [Store.set, h]

theorem updateNode_id (r1 r2 r3 : ℚ) (n : FedNode) :
    (updateNode r1 r2 r3 n).id = n.id := rfl

theorem updateNode_name (r1 r2 r3 : ℚ) (n : FedNode) :
    (updateNode r1 r2 r3 n).name = n.name := rfl

theorem updateNode_samples (r1 r2 r3 : ℚ) (n : FedNode) :
    (updateNode r1 r2 r3 n).samples = n.samples := rfl

theorem updateNodes_map_id (g : ℕ → ℚ) (j : ℕ) (ns : List FedNode) :
    (updateNodes g j ns).map FedNode.id = ns.map FedNode.id := by
  induction ns generalizing j with
  | nil => rfl
  | cons n rest ih => simp [updateNodes, updateNode_id, ih]

theorem updateNodes_map_name (g : ℕ → ℚ) (j : ℕ) (ns : List FedNode) :
    (updateNodes g j ns).map FedNode.name = ns.map FedNode.name := by
  induction ns generalizing j with
  | nil => rfl
  | cons n rest ih => simp [updateNodes, updateNode_name, ih]

theorem updateNodes_map_samples (g : ℕ → ℚ) (j : ℕ) (ns : List FedNode) :
    (updateNodes g j ns).map FedNode.samples = ns.map FedNode.samples := by
  induction ns generalizing j with
  | nil => rfl
  | cons n rest ih => simp [updateNodes, updateNode_samples, ih]

theorem mem_updateNodes (g : ℕ → ℚ) (j : ℕ) (ns : List FedNode) (x : FedNode) :
    x ∈ updateNodes g j ns →
      ∃ n ∈ ns, ∃ i, x = updateNode (g i) (g (i + 1)) (g (i + 2)) n := by
  induction ns generalizing j with
  | nil => intro h; simp [updateNodes] at h
  | cons n rest ih =>
    intro h
    rcases List.mem_cons.mp h with h | h
    · exact ⟨n, List.mem_cons_self n rest, j, h⟩
    · obtain ⟨m, hm, i, hx⟩ := ih (j + 3) h
      exact ⟨m, List.mem_cons_of_mem n hm, i, hx⟩

theorem simStateful_current_round (g : ℕ → ℚ) (now : ℕ) (s : Session) (r : ℕ) :
    (simulateRoundProgressStateful g now s r).current_round = r := rfl

theorem simStateful_status (g : ℕ → ℚ) (now : ℕ) (s : Session) (r : ℕ) :
    (simulateRoundProgressStateful g now s r).status = s.status := rfl

theorem simStateful_max_rounds (g : ℕ → ℚ) (now : ℕ) (s : Session) (r : ℕ) :
    (simulateRoundProgressStateful g now s r).max_rounds = s.max_rounds := rfl

theorem simStateful_nodes (g : ℕ → ℚ) (now : ℕ) (s : Session) (r : ℕ) :
    (simulateRoundProgressStateful g now s r).nodes = updateNodes g 0 s.nodes := rfl

/-! ## Branch lemmas for the stateful `advance` handler -/

theorem advanceStateful_notFound (g : ℕ → ℚ) (now : ℕ) (store : Store) (rid : String)
    (h : store rid = none) :
    advanceStateful g now store (some rid)
      = (StatefulResp.notFound "Training session not found", store) := by
  simp [advanceStateful, h]

theorem advanceStateful_paused (g : ℕ → ℚ) (now : ℕ) (store : Store) (rid : String)
    (s : Session) (h : store rid = some s) (hp : s.status = SessionStatus.paused) :
    advanceStateful g now store (some rid)
      = (StatefulResp.sessionResp rid s (some "Training is paused"), store) := by
  simp [advanceStateful, h, hp]

theorem advanceStateful_completed (g : ℕ → ℚ) (now : ℕ) (store : Store) (rid : String)
    (s : Session) (h : store rid = some s) (hp : s.status ≠ SessionStatus.paused)
    (hr : s.max_rounds ≤ s.current_round) :
    advanceStateful g now store (some rid)
      = (StatefulResp.sessionResp rid { s with status := SessionStatus.completed } none,
         Store.set store rid { s with status := SessionStatus.completed }) := by
  simp [advanceStateful, h, hp, hr]

theorem advanceStateful_run (g : ℕ → ℚ) (now : ℕ) (store : Store) (rid : String)
    (s : Session) (h : store rid = some s) (hp : s.status ≠ SessionStatus.paused)
    (hr : s.current_round < s.max_rounds) :
    advanceStateful g now store (some rid)
      = (let s1 := simulateRoundProgressStateful g now s (s.current_round + 1)
         let s2 :=
           if s1.max_rounds ≤ s1.current_round then { s1 with status := SessionStatus.completed }
           else s1
         (StatefulResp.sessionResp rid s2 none, Store.set store rid s2)) := by
  simp [advanceStateful, h, hp, Nat.not_le_of_lt hr]

/-! ## C3 — advance on a paused session is a no-op -/

/-- C3: calling `advance` on a paused session is a no-op.  Stateful variant:
the response echoes the stored session (same `current_round`, `accuracy`,
`loss`, `nodes`), with its status still `paused`, carries the
`'Training is paused'` message, and the store is returned unmodified.
Stateless variant: when `is_paused` is set, the handler echoes the
request's `current_round` / `max_rounds` / `nodes` with a `paused` signal. -/
theorem c3_paused_advance_noop (g : ℕ → ℚ) (now : ℕ) (store : Store) (rid : String)
    (s : Session) (req : AdvanceReq) (rid2 : String)
    (h : store rid = some s) (hp : s.status = SessionStatus.paused)
    (h2 : req.is_paused = true) (h3 : req.round_id = some rid2) :
    advanceStateful g now store (some rid)
      = (StatefulResp.sessionResp rid s (some "Training is paused"), store)
    ∧ advanceStateless g now req
      = StatelessResp.pausedEcho rid2 req.current_round req.max_rounds req.nodes
          "Training is paused" := by
  refine ⟨advanceStateful_paused g now store rid s h hp, ?_⟩
  simp [advanceStateless, h3, h2]

/-- C3 witness: a concrete paused session and a concrete paused request. -/
theorem c3_paused_advance_noop_witness :
    advanceStateful (fun _ => 0) 7
        (fun _ => some ⟨SessionStatus.paused, 1, 3, 85/100, 1/2, 61700, [], 0, 0⟩)
        (some "r")
      = (StatefulResp.sessionResp "r"
           ⟨SessionStatus.paused, 1, 3, 85/100, 1/2, 61700, [], 0, 0⟩
           (some "Training is paused"),
         fun _ => some ⟨SessionStatus.paused, 1, 3, 85/100, 1/2, 61700, [], 0, 0⟩)
    ∧ advanceStateless (fun _ => 0) 7 ⟨some "q", some 1, some 3, none, true⟩
      = StatelessResp.pausedEcho "q" (some 1) (some 3) none "Training is paused" :=
  c3_paused_advance_noop (fun _ => 0) 7
    (fun _ => some ⟨SessionStatus.paused, 1, 3, 85/100, 1/2, 61700, [], 0, 0⟩)
    "r" ⟨SessionStatus.paused, 1, 3, 85/100, 1/2, 61700, [], 0, 0⟩
    ⟨some "q", some 1, some 3, none, true⟩ "q" rfl rfl rfl rfl

/-! ## C7 — unknown round id -/

/-- C7 counterexample: in the stateless variant an `advance` naming a round
id no server knows anything about (there is no store at all) does not yield
a not-found signal: with `nodes` absent it silently falls back to
`generateNodes()` and answers a success response carrying four fabricated
nodes. -/
theorem c7_counterexample :
    advanceStateless (fun _ => 0) 0 ⟨some "ghost", some 0, some 3, none, false⟩
      = StatelessResp.ok "ghost" (some 3) 0
          (simulateRoundProgress (fun _ => 0) 0 3 generateNodes)
    ∧ (advanceStateless (fun _ => 0) 0 ⟨some "ghost", some 0, some 3, none, false⟩).isSuccess
        = true
    ∧ (simulateRoundProgress (fun _ => 0) 0 3 generateNodes).nodes.length = 4 :=
  ⟨rfl, rfl, rfl⟩

/-- C7 (amended): in the server-stateful variant, an `advance` or `status`
request naming a round id absent from the store yields the distinct
not-found response and leaves the store unchanged; in the stateless
variant, however, an `advance` whose request carries no `nodes` state does
not signal not-found — it silently substitutes `generateNodes()` and
answers a success response built from that fabricated node list. -/
theorem c7_not_found_behaviour (g : ℕ → ℚ) (now : ℕ) (store : Store) (rid : String)
    (req : AdvanceReq) (rid2 : String) (h : store rid = none) :
    (advanceStateful g now store (some rid)
      = (StatefulResp.notFound "Training session not found", store))
    ∧ statusStateful store (some rid) = StatefulResp.notFound "Training session not found"
    ∧ (req.round_id = some rid2 → req.is_paused = false → req.nodes = none →
        jsGe req.current_round req.max_rounds = false →
        advanceStateless g now req
          = StatelessResp.ok rid2 req.max_rounds now
              (simulateRoundProgress g (orDefault req.current_round 0)
                (orDefault req.max_rounds 10) generateNodes)) := by
  refine ⟨advanceStateful_notFound g now store rid h, ?_, ?_⟩
  · simp [statusStateful, h]
  · intro h1 h2 h3 h4
    simp [advanceStateless, h1, h2, h3, h4]

/-- C7 witness: the empty store, plus a concrete node-less stateless request. -/
theorem c7_not_found_behaviour_witness :
    (advanceStateful (fun _ => 0) 0 (fun _ => none) (some "ghost")
      = (StatefulResp.notFound "Training session not found", fun _ => none))
    ∧ statusStateful (fun _ => none) (some "ghost")
        = StatefulResp.notFound "Training session not found"
    ∧ advanceStateless (fun _ => 0) 0 ⟨some "g2", some 1, some 5, none, false⟩
        = StatelessResp.ok "g2" (some 5) 0
            (simulateRoundProgress (fun _ => 0) (orDefault (some 1) 0)
              (orDefault (some 5) 10) generateNodes) := by
  obtain ⟨w1, w2, w3⟩ :=
    c7_not_found_behaviour (fun _ => 0) 0 (fun _ => none) "ghost"
      ⟨some "g2", some 1, some 5, none, false⟩ "g2" rfl
  exact ⟨w1, w2, w3 rfl rfl rfl rfl⟩

/-! ## C8 — missing round id -/

/-- C8 counterexample: a `pause` (and likewise `resume`) request with no
`round_id` is not rejected with a validation error: the stateful handler
performs no such check and answers its usual `{ status, round_id }`
acknowledgment with a 200-style response. -/
theorem c8_counterexample :
    pauseStateful 0 (fun _ => none) none
      = (StatefulResp.ack SessionStatus.paused none, fun _ => none)
    ∧ StatefulResp.ack SessionStatus.paused none
        ≠ StatefulResp.badRequest "round_id is required"
    ∧ resumeStateful 0 (fun _ => none) none
      = (StatefulResp.ack SessionStatus.running none, fun _ => none)
    ∧ StatefulResp.ack SessionStatus.running none
        ≠ StatefulResp.badRequest "round_id is required" := by
  refine ⟨rfl, ?_, rfl, ?_⟩ <;> decide

/-- C8 (amended): `advance` and `status` requests missing the required
`round_id` are rejected immediately with the validation error, the store
untouched; `pause` and `resume` requests missing `round_id` are *not*
rejected — they answer their usual acknowledgment (and, the lookup having
missed, also leave the store untouched). -/
theorem c8_missing_round_id (g : ℕ → ℚ) (now now2 : ℕ) (store : Store)
    (req : AdvanceReq) (h : req.round_id = none) :
    advanceStateful g now store none
      = (StatefulResp.badRequest "round_id is required", store)
    ∧ statusStateful store none = StatefulResp.badRequest "round_id is required"
    ∧ advanceStateless g now req = StatelessResp.badRequest "round_id is required"
    ∧ pauseStateful now2 store none = (StatefulResp.ack SessionStatus.paused none, store)
    ∧ resumeStateful now2 store none
      = (StatefulResp.ack SessionStatus.running none, store) := by
  refine ⟨rfl, rfl, ?_, rfl, rfl⟩
  simp [advanceStateless, h]

/-- C8 witness: the empty store and a request with `round_id` absent. -/
theorem c8_missing_round_id_witness :
    advanceStateful (fun _ => 0) 0 (fun _ => none) none
      = (StatefulResp.badRequest "round_id is required", fun _ => none)
    ∧ statusStateful (fun _ => none) none = StatefulResp.badRequest "round_id is required"
    ∧ advanceStateless (fun _ => 0) 0 ⟨none, some 1, some 3, none, false⟩
        = StatelessResp.badRequest "round_id is required"
    ∧ pauseStateful 1 (fun _ => none) none
        = (StatefulResp.ack SessionStatus.paused none, fun _ => none)
    ∧ resumeStateful 1 (fun _ => none) none
        = (StatefulResp.ack SessionStatus.running none, fun _ => none) :=
  c8_missing_round_id (fun _ => 0) 0 1 (fun _ => none)
    ⟨none, some 1, some 3, none, false⟩ rfl

/-! ## C1 — advance once max_rounds is reached -/

/-- C1 counterexample: a session that has reached `max_rounds` but is
paused.  The state is reachable: `start(3)`, three `advance` calls
(completing the session at round 3), then `pause`.  A further `advance`
leaves the status `paused` — it does not ensure `completed`, contrary to
the claim's "every further advance call … ensures status is completed". -/
theorem c1_counterexample :
    (pausedAtMaxStore "r").map Session.current_round = some 3
    ∧ (pausedAtMaxStore "r").map Session.max_rounds = some 3
    ∧ (pausedAtMaxStore "r").map Session.status = some SessionStatus.paused
    ∧ ((advanceStateful (fun _ => 0) 5 pausedAtMaxStore (some "r")).2 "r").map Session.status
        = some SessionStatus.paused
    ∧ some SessionStatus.paused ≠ some SessionStatus.completed :=
  ⟨rfl, rfl, rfl, rfl, by decide⟩

/-- C1 (amended): for every *non-paused* session whose `current_round` has
reached `max_rounds`, every further `advance` call is a no-op apart from
ensuring `status = completed`: the response and the stored session keep
`current_round`, `accuracy`, `loss` and `nodes` exactly as they were (only
the status field is rewritten to `completed`); the call is independent of
the random stream and of the clock (no random values are drawn), and a
repeated `advance` returns the same response and leaves the store fixed.
In the stateless variant, a non-paused request with
`current_round >= max_rounds` is likewise echoed unchanged with a
`completed` status, independently of the random stream.
(A session that reached `max_rounds` but is `paused` instead gets the
paused no-op echo and keeps status `paused`.) -/
theorem c1_advance_after_max (g g2 g3 : ℕ → ℚ) (now now2 now3 : ℕ) (store : Store)
    (rid : String) (s : Session) (req : AdvanceReq) (rid2 : String)
    (h : store rid = some s) (hr : s.max_rounds ≤ s.current_round)
    (hp : s.status ≠ SessionStatus.paused) :
    advanceStateful g now store (some rid)
      = (StatefulResp.sessionResp rid { s with status := SessionStatus.completed } none,
         Store.set store rid { s with status := SessionStatus.completed })
    ∧ advanceStateful g now store (some rid) = advanceStateful g2 now2 store (some rid)
    ∧ advanceStateful g3 now3 (advanceStateful g now store (some rid)).2 (some rid)
      = (StatefulResp.sessionResp rid { s with status := SessionStatus.completed } none,
         (advanceStateful g now store (some rid)).2)
    ∧ (req.round_id = some rid2 → req.is_paused = false →
        jsGe req.current_round req.max_rounds = true →
        advanceStateless g now req
          = StatelessResp.completedEcho rid2 req.current_round req.max_rounds req.nodes
        ∧ advanceStateless g now req = advanceStateless g2 now2 req) := by
  have h1 := advanceStateful_completed g now store rid s h hp hr
  have h2 := advanceStateful_completed g2 now2 store rid s h hp hr
  refine ⟨h1, h1.trans h2.symm, ?_, ?_⟩
  case refine_2 =>
    intro hrid hip hge
    constructor
    · simp [advanceStateless, hrid, hip, hge]
    · simp [advanceStateless, hrid, hip, hge]
  rw [h1]
  have hself : Store.set store rid { s with status := SessionStatus.completed } rid
      = some { s with status := SessionStatus.completed } := Store.set_self _ _ _
  have h3 := advanceStateful_completed g3 now3
    (Store.set store rid { s with status := SessionStatus.completed }) rid
    { s with status := SessionStatus.completed } hself (by simp) (by simpa using hr)
  rw [h3]
  refine Prod.ext rfl ?_
  funext k
  by_cases hk : k = rid
  · subst hk; simp [Store.set]
  · simp [Store.set, hk]

/-- C1 witness: a concrete running session already at round 3 of 3. -/
theorem c1_advance_after_max_witness :
    advanceStateful (fun _ => 0) 0
        (fun _ => some ⟨SessionStatus.running, 3, 3, 9/10, 1/10, 61700, [], 0, 0⟩)
        (some "r")
      = (StatefulResp.sessionResp "r"
           ⟨SessionStatus.completed, 3, 3, 9/10, 1/10, 61700, [], 0, 0⟩ none,
         Store.set (fun _ => some ⟨SessionStatus.running, 3, 3, 9/10, 1/10, 61700, [], 0, 0⟩)
           "r" ⟨SessionStatus.completed, 3, 3, 9/10, 1/10, 61700, [], 0, 0⟩)
    ∧ advanceStateful (fun _ => 0) 0
        (fun _ => some ⟨SessionStatus.running, 3, 3, 9/10, 1/10, 61700, [], 0, 0⟩)
        (some "r")
      = advanceStateful (fun _ => 1/2) 9
          (fun _ => some ⟨SessionStatus.running, 3, 3, 9/10, 1/10, 61700, [], 0, 0⟩)
          (some "r")
    ∧ advanceStateful (fun _ => 1/3) 8
        (advanceStateful (fun _ => 0) 0
          (fun _ => some ⟨SessionStatus.running, 3, 3, 9/10, 1/10, 61700, [], 0, 0⟩)
          (some "r")).2 (some "r")
      = (StatefulResp.sessionResp "r"
           ⟨SessionStatus.completed, 3, 3, 9/10, 1/10, 61700, [], 0, 0⟩ none,
         (advanceStateful (fun _ => 0) 0
           (fun _ => some ⟨SessionStatus.running, 3, 3, 9/10, 1/10, 61700, [], 0, 0⟩)
           (some "r")).2)
    ∧ advanceStateless (fun _ => 0) 0 ⟨some "q", some 3, some 3, none, false⟩
      = StatelessResp.completedEcho "q" (some 3) (some 3) none := by
  obtain ⟨w1, w2, w3, w4⟩ :=
    c1_advance_after_max (fun _ => 0) (fun _ => 1/2) (fun _ => 1/3) 0 9 8
      (fun _ => some ⟨SessionStatus.running, 3, 3, 9/10, 1/10, 61700, [], 0, 0⟩) "r"
      ⟨SessionStatus.running, 3, 3, 9/10, 1/10, 61700, [], 0, 0⟩
      ⟨some "q", some 3, some 3, none, false⟩ "q"
      rfl (by decide) (by decide)
  exact ⟨w1, w2, w3, (w4 rfl rfl rfl).1⟩

/-! ## C2 — current_round never decreases; a simulated round adds exactly 1 -/

theorem advanceStateful_mono (g : ℕ → ℚ) (now : ℕ) (store : Store) (ridq : Option String)
    (k : String) (s : Session) (h : store k = some s) :
    ∃ s2, (advanceStateful g now store ridq).2 k = some s2
      ∧ s.current_round ≤ s2.current_round := by
  cases ridq with
  | none => exact ⟨s, h, le_refl _⟩
  | some rid =>
    cases hst : store rid with
    | none =>
      refine ⟨s, ?_, le_refl _⟩
      rw [advanceStateful_notFound g now store rid hst]
      exact h
    | some t =>
      by_cases hp : t.status = SessionStatus.paused
      · refine ⟨s, ?_, le_refl _⟩
        rw [advanceStateful_paused g now store rid t hst hp]
        exact h
      · by_cases hk : k = rid
        · subst hk
          have hts : t = s := Option.some.inj (hst.symm.trans h)
          subst hts
          by_cases hr : t.max_rounds ≤ t.current_round
          · refine ⟨{ t with status := SessionStatus.completed }, ?_, le_refl _⟩
            rw [advanceStateful_completed g now store k t hst hp hr]
            exact Store.set_self _ _ _
          · rw [advanceStateful_run g now store k t hst hp (Nat.lt_of_not_le hr)]
            refine ⟨_, Store.set_self _ _ _, ?_⟩
            split
            · simp [simStateful_current_round]
            · simp [simStateful_current_round]
        · refine ⟨s, ?_, le_refl _⟩
          by_cases hr : t.max_rounds ≤ t.current_round
          · rw [advanceStateful_completed g now store rid t hst hp hr]
            simpa [Store.set, hk] using h
          · rw [advanceStateful_run g now store rid t hst hp (Nat.lt_of_not_le hr)]
            simpa [Store.set, hk] using h

theorem advanceMany_mono (calls : List ((ℕ → ℚ) × ℕ × Option String)) (k : String) :
    ∀ store : Store, ∀ s : Session, store k = some s →
      ∃ s2, advanceMany calls store k = some s2 ∧ s.current_round ≤ s2.current_round := by
  induction calls with
  | nil => exact fun store s h => ⟨s, h, le_refl _⟩
  | cons c rest ih =>
    intro store s h
    obtain ⟨s1, h1, hle1⟩ := advanceStateful_mono c.1 c.2.1 store c.2.2 k s h
    obtain ⟨s2, h2, hle2⟩ := ih _ _ h1
    exact ⟨s2, h2, le_trans hle1 hle2⟩

/-- C2: across any sequence of stateful `advance` calls the `current_round`
of every stored session never decreases; and an `advance` that actually
simulates a round (the session exists, its status is `running`, and
`current_round < max_rounds`) stores a session whose `current_round` is
exactly the old `current_round + 1`. -/
theorem c2_current_round_monotone (calls : List ((ℕ → ℚ) × ℕ × Option String))
    (g : ℕ → ℚ) (now : ℕ) (store : Store) (k rid : String) (s s2 : Session) :
    (store k = some s → advanceMany calls store k = some s2 →
      s.current_round ≤ s2.current_round)
    ∧ (store rid = some s → s.status = SessionStatus.running →
        s.current_round < s.max_rounds →
        ((advanceStateful g now store (some rid)).2 rid).map Session.current_round
          = some (s.current_round + 1)) := by
  constructor
  · intro h h2
    obtain ⟨t, ht, hle⟩ := advanceMany_mono calls k store s h
    rw [ht] at h2
    exact Option.some.inj h2 ▸ hle
  · intro h hrun hlt
    have hp : s.status ≠ SessionStatus.paused := by rw [hrun]; decide
    rw [advanceStateful_run g now store rid s h hp hlt]
    simp only []
    rw [Store.set_self]
    split
    · simp [simStateful_current_round]
    · simp [simStateful_current_round]

/-- C2 witness: the empty call sequence keeps round 0, and one `advance` on
a fresh running session with `max_rounds = 3` stores round 1. -/
theorem c2_current_round_monotone_witness :
    (0 : ℕ) ≤ 0
    ∧ ((advanceStateful (fun _ => 0) 0
          (fun _ => some ⟨SessionStatus.running, 0, 3, 85/100, 1/2, 61700, [], 0, 0⟩)
          (some "r")).2 "r").map Session.current_round = some 1 :=
  ⟨(c2_current_round_monotone [] (fun _ => 0) 0
      (fun _ => some ⟨SessionStatus.running, 0, 3, 85/100, 1/2, 61700, [], 0, 0⟩) "r" "r"
      ⟨SessionStatus.running, 0, 3, 85/100, 1/2, 61700, [], 0, 0⟩
      ⟨SessionStatus.running, 0, 3, 85/100, 1/2, 61700, [], 0, 0⟩).1 rfl rfl,
   (c2_current_round_monotone [] (fun _ => 0) 0
      (fun _ => some ⟨SessionStatus.running, 0, 3, 85/100, 1/2, 61700, [], 0, 0⟩) "r" "r"
      ⟨SessionStatus.running, 0, 3, 85/100, 1/2, 61700, [], 0, 0⟩
      ⟨SessionStatus.running, 0, 3, 85/100, 1/2, 61700, [], 0, 0⟩).2 rfl rfl (by decide)⟩

/-! ## C10 — pause has no status precondition; completed is escapable -/

/-- C10: in the stateful variant, `pause` sets the status of any existing
session to `paused` regardless of its current status — so also a
`completed` session — and `resume` then sets the paused session back to
`running`: a session can leave the `completed` state via pause/resume. -/
theorem c10_pause_resume_any_status (store : Store) (rid : String) (s : Session)
    (now now2 : ℕ) (h : store rid = some s) :
    (pauseStateful now store (some rid)).2 rid
      = some { s with status := SessionStatus.paused, updated_at := now }
    ∧ (resumeStateful now2 (pauseStateful now store (some rid)).2 (some rid)).2 rid
      = some { s with status := SessionStatus.running, updated_at := now2 } := by
  have hpause : (pauseStateful now store (some rid)).2 rid
      = some { s with status := SessionStatus.paused, updated_at := now } := by
    simp [pauseStateful, h, Store.set_self]
  refine ⟨hpause, ?_⟩
  simp only [resumeStateful, pauseStateful, h]
  rw [Store.set_self]
  simp [Store.set_self]

/-- C10 witness: a concrete completed session leaves `completed` via
pause then resume. -/
theorem c10_pause_resume_any_status_witness :
    (pauseStateful 5
        (fun _ => some ⟨SessionStatus.completed, 3, 3, 9/10, 1/10, 61700, [], 0, 0⟩)
        (some "r")).2 "r"
      = some ⟨SessionStatus.paused, 3, 3, 9/10, 1/10, 61700, [], 0, 5⟩
    ∧ (resumeStateful 6
        (pauseStateful 5
          (fun _ => some ⟨SessionStatus.completed, 3, 3, 9/10, 1/10, 61700, [], 0, 0⟩)
          (some "r")).2
        (some "r")).2 "r"
      = some ⟨SessionStatus.running, 3, 3, 9/10, 1/10, 61700, [], 0, 6⟩ :=
  c10_pause_resume_any_status
    (fun _ => some ⟨SessionStatus.completed, 3, 3, 9/10, 1/10, 61700, [], 0, 0⟩) "r"
    ⟨SessionStatus.completed, 3, 3, 9/10, 1/10, 61700, [], 0, 0⟩ 5 6 rfl

/-- One `advance` on a running session that does not reach `max_rounds`:
the stored session becomes the simulated one (status untouched). -/
theorem advanceStateful_run_store_mid (g : ℕ → ℚ) (now : ℕ) (store : Store)
    (rid : String) (s : Session) (h : store rid = some s)
    (hp : s.status ≠ SessionStatus.paused)
    (hr : s.current_round + 1 < s.max_rounds) :
    (advanceStateful g now store (some rid)).2 rid
      = some (simulateRoundProgressStateful g now s (s.current_round + 1)) := by
  have hc : ¬ ((simulateRoundProgressStateful g now s (s.current_round + 1)).max_rounds ≤
      (simulateRoundProgressStateful g now s (s.current_round + 1)).current_round) := by
    rw [simStateful_max_rounds, simStateful_current_round]
    omega
  rw [advanceStateful_run g now store rid s h hp (by omega)]
  simp only [if_neg hc]
  exact Store.set_self _ _ _

/-- One `advance` on a running session whose next round reaches
`max_rounds`: the stored session is the simulated one marked `completed`. -/
theorem advanceStateful_run_store_last (g : ℕ → ℚ) (now : ℕ) (store : Store)
    (rid : String) (s : Session) (h : store rid = some s)
    (hp : s.status ≠ SessionStatus.paused)
    (hlt : s.current_round < s.max_rounds)
    (hlast : s.max_rounds = s.current_round + 1) :
    (advanceStateful g now store (some rid)).2 rid
      = some { simulateRoundProgressStateful g now s (s.current_round + 1) with
               status := SessionStatus.completed } := by
  have hc : (simulateRoundProgressStateful g now s (s.current_round + 1)).max_rounds ≤
      (simulateRoundProgressStateful g now s (s.current_round + 1)).current_round := by
    rw [simStateful_max_rounds, simStateful_current_round]
    omega
  rw [advanceStateful_run g now store rid s h hp hlt]
  simp only [if_pos hc]
  exact Store.set_self _ _ _

/-! ## C4 — per-node accuracy form and bounds -/

theorem updateNodes_accuracy (g : ℕ → ℚ) (j : ℕ) (ns : List FedNode) (x : FedNode)
    (hg : ∀ k, 0 ≤ g k ∧ g k < 1) (h : x ∈ updateNodes g j ns) :
    (85/100 ≤ x.accuracy ∧ x.accuracy ≤ 99/100)
    ∧ ∃ n ∈ ns, ∃ d : ℚ, -(5/1000) ≤ d ∧ d < 15/1000
        ∧ x.accuracy = min (99/100) (max (85/100) (n.accuracy + d)) := by
  obtain ⟨n, hn, i, hx⟩ := mem_updateNodes g j ns x h
  subst hx
  refine ⟨⟨le_min (by norm_num) (le_max_left _ _), min_le_left _ _⟩,
    n, hn, g (i + 1) * (2/100) - 5/1000, ?_, ?_, rfl⟩
  · have h0 := (hg (i + 1)).1
    nlinarith
  · have h1 := (hg (i + 1)).2
    nlinarith

/-- C4: after any `advance` (either simulator variant), every node's
accuracy lies in `[0.85, 0.99]`, and it is exactly the previous accuracy
plus a perturbation `d = r·0.02 − 0.005` (a uniform draw from
`[-0.005, 0.015)` given `r ∈ [0, 1)`), clamped into `[0.85, 0.99]`. -/
theorem c4_node_accuracy_bounds (g : ℕ → ℚ) (cr mr now r : ℕ) (ns : List FedNode)
    (s : Session) (x y : FedNode) (hg : ∀ k, 0 ≤ g k ∧ g k < 1) :
    (x ∈ (simulateRoundProgress g cr mr ns).nodes →
      (85/100 ≤ x.accuracy ∧ x.accuracy ≤ 99/100)
      ∧ ∃ n ∈ ns, ∃ d : ℚ, -(5/1000) ≤ d ∧ d < 15/1000
          ∧ x.accuracy = min (99/100) (max (85/100) (n.accuracy + d)))
    ∧ (y ∈ (simulateRoundProgressStateful g now s r).nodes →
      (85/100 ≤ y.accuracy ∧ y.accuracy ≤ 99/100)
      ∧ ∃ n ∈ s.nodes, ∃ d : ℚ, -(5/1000) ≤ d ∧ d < 15/1000
          ∧ y.accuracy = min (99/100) (max (85/100) (n.accuracy + d))) :=
  ⟨fun h => updateNodes_accuracy g 0 ns x hg h,
   fun h => updateNodes_accuracy g 0 s.nodes y hg h⟩

/-- C4 witness: a single-node session advanced with the constant draw 1/2. -/
theorem c4_node_accuracy_bounds_witness :
    85/100 ≤ (updateNode (1/2) (1/2) (1/2) ⟨"n", "N", NodeStatus.idle, 9/10, 10, 0⟩).accuracy
    ∧ (updateNode (1/2) (1/2) (1/2) ⟨"n", "N", NodeStatus.idle, 9/10, 10, 0⟩).accuracy
        ≤ 99/100 :=
  ((c4_node_accuracy_bounds (fun _ => 1/2) 0 3 0 1
      [⟨"n", "N", NodeStatus.idle, 9/10, 10, 0⟩]
      ⟨SessionStatus.running, 0, 3, 85/100, 1/2, 0,
        [⟨"n", "N", NodeStatus.idle, 9/10, 10, 0⟩], 0, 0⟩
      (updateNode ((fun _ => (1:ℚ)/2) 0) ((fun _ => (1:ℚ)/2) 1) ((fun _ => (1:ℚ)/2) 2)
        ⟨"n", "N", NodeStatus.idle, 9/10, 10, 0⟩)
      (updateNode ((fun _ => (1:ℚ)/2) 0) ((fun _ => (1:ℚ)/2) 1) ((fun _ => (1:ℚ)/2) 2)
        ⟨"n", "N", NodeStatus.idle, 9/10, 10, 0⟩)
      (fun _ => ⟨by norm_num, by norm_num⟩)).1 (List.Mem.head _)).1

/-! ## C5 — global accuracy/loss curves and bounds -/

/-- C5: after any `advance` computing round `r` with `m = max_rounds`, the
global accuracy is exactly `min(0.98, 0.85 + (r/m)·0.12 + e)` with
`e = g·0.02 − 0.01 ∈ [-0.01, 0.01)` and the global loss is exactly
`max(0.02, 0.5 − (r/m)·0.45 + d)` with `d = g·0.05 ∈ [0, 0.05)`; in
particular accuracy ≤ 0.98 and loss ≥ 0 — in both simulator variants
(stateless computes `r = currentRound + 1`). -/
theorem c5_global_accuracy_loss (g : ℕ → ℚ) (cr mr now r : ℕ) (ns : List FedNode)
    (s : Session) (hg : ∀ k, 0 ≤ g k ∧ g k < 1) :
    ((simulateRoundProgress g cr mr ns).accuracy
        = min (98/100) (85/100 + (((cr + 1 : ℕ) : ℚ) / (mr : ℚ)) * (12/100)
            + (g (3 * ns.length) * (2/100) - 1/100))
     ∧ -(1/100) ≤ g (3 * ns.length) * (2/100) - 1/100
     ∧ g (3 * ns.length) * (2/100) - 1/100 < 1/100
     ∧ (simulateRoundProgress g cr mr ns).loss
        = max (2/100) (1/2 - (((cr + 1 : ℕ) : ℚ) / (mr : ℚ)) * (45/100)
            + g (3 * ns.length + 1) * (5/100))
     ∧ 0 ≤ g (3 * ns.length + 1) * (5/100)
     ∧ g (3 * ns.length + 1) * (5/100) < 5/100
     ∧ (simulateRoundProgress g cr mr ns).accuracy ≤ 98/100
     ∧ 0 ≤ (simulateRoundProgress g cr mr ns).loss)
    ∧ ((simulateRoundProgressStateful g now s r).accuracy
        = min (98/100) (85/100 + ((r : ℚ) / (s.max_rounds : ℚ)) * (12/100)
            + (g (3 * s.nodes.length) * (2/100) - 1/100))
     ∧ (simulateRoundProgressStateful g now s r).loss
        = max (2/100) (1/2 - ((r : ℚ) / (s.max_rounds : ℚ)) * (45/100)
            + g (3 * s.nodes.length + 1) * (5/100))
     ∧ -(1/100) ≤ g (3 * s.nodes.length) * (2/100) - 1/100
     ∧ g (3 * s.nodes.length) * (2/100) - 1/100 < 1/100
     ∧ 0 ≤ g (3 * s.nodes.length + 1) * (5/100)
     ∧ g (3 * s.nodes.length + 1) * (5/100) < 5/100
     ∧ (simulateRoundProgressStateful g now s r).accuracy ≤ 98/100
     ∧ 0 ≤ (simulateRoundProgressStateful g now s r).loss) := by
  have lo : ∀ k, -(1/100 : ℚ) ≤ g k * (2/100) - 1/100 := by
    intro k
    have h0 := (hg k).1
    nlinarith
  have hi : ∀ k, g k * (2/100) - 1/100 < (1/100 : ℚ) := by
    intro k
    have h1 := (hg k).2
    nlinarith
  have lo2 : ∀ k, (0 : ℚ) ≤ g k * (5/100) := by
    intro k
    have h0 := (hg k).1
    nlinarith
  have hi2 : ∀ k, g k * (5/100) < (5/100 : ℚ) := by
    intro k
    have h1 := (hg k).2
    nlinarith
  refine ⟨⟨rfl, lo _, hi _, rfl, lo2 _, hi2 _, min_le_left _ _, ?_⟩,
          rfl, rfl, lo _, hi _, lo2 _, hi2 _, min_le_left _ _, ?_⟩
  · exact le_trans (by norm_num) (le_max_left (2/100 : ℚ) _)
  · exact le_trans (by norm_num) (le_max_left (2/100 : ℚ) _)

/-- C5 witness: the empty node list, constant draw 0, round 1 of 5
(stateless) and round 2 of 4 (stateful). -/
theorem c5_global_accuracy_loss_witness :
    ((simulateRoundProgress (fun _ => 0) 0 5 []).accuracy
        = min (98/100) (85/100 + (((0 + 1 : ℕ) : ℚ) / (5 : ℚ)) * (12/100)
            + ((fun _ => (0:ℚ)) (3 * List.length ([] : List FedNode)) * (2/100) - 1/100))
     ∧ -(1/100) ≤ (fun _ => (0:ℚ)) (3 * List.length ([] : List FedNode)) * (2/100) - 1/100
     ∧ (fun _ => (0:ℚ)) (3 * List.length ([] : List FedNode)) * (2/100) - 1/100 < 1/100
     ∧ (simulateRoundProgress (fun _ => 0) 0 5 []).loss
        = max (2/100) (1/2 - (((0 + 1 : ℕ) : ℚ) / (5 : ℚ)) * (45/100)
            + (fun _ => (0:ℚ)) (3 * List.length ([] : List FedNode) + 1) * (5/100))
     ∧ 0 ≤ (fun _ => (0:ℚ)) (3 * List.length ([] : List FedNode) + 1) * (5/100)
     ∧ (fun _ => (0:ℚ)) (3 * List.length ([] : List FedNode) + 1) * (5/100) < 5/100
     ∧ (simulateRoundProgress (fun _ => 0) 0 5 []).accuracy ≤ 98/100
     ∧ 0 ≤ (simulateRoundProgress (fun _ => 0) 0 5 []).loss)
    ∧ ((simulateRoundProgressStateful (fun _ => 0) 0
          ⟨SessionStatus.running, 1, 4, 85/100, 1/2, 0, [], 0, 0⟩ 2).accuracy
        = min (98/100) (85/100 + (((2 : ℕ) : ℚ)
            / ((Session.max_rounds ⟨SessionStatus.running, 1, 4, 85/100, 1/2, 0, [], 0, 0⟩ : ℕ) : ℚ)) * (12/100)
            + ((fun _ => (0:ℚ)) (3 * List.length (Session.nodes ⟨SessionStatus.running, 1, 4, 85/100, 1/2, 0, [], 0, 0⟩)) * (2/100) - 1/100))
     ∧ (simulateRoundProgressStateful (fun _ => 0) 0
          ⟨SessionStatus.running, 1, 4, 85/100, 1/2, 0, [], 0, 0⟩ 2).loss
        = max (2/100) (1/2 - (((2 : ℕ) : ℚ)
            / ((Session.max_rounds ⟨SessionStatus.running, 1, 4, 85/100, 1/2, 0, [], 0, 0⟩ : ℕ) : ℚ)) * (45/100)
            + (fun _ => (0:ℚ)) (3 * List.length (Session.nodes ⟨SessionStatus.running, 1, 4, 85/100, 1/2, 0, [], 0, 0⟩) + 1) * (5/100))
     ∧ -(1/100) ≤ (fun _ => (0:ℚ)) (3 * List.length (Session.nodes ⟨SessionStatus.running, 1, 4, 85/100, 1/2, 0, [], 0, 0⟩)) * (2/100) - 1/100
     ∧ (fun _ => (0:ℚ)) (3 * List.length (Session.nodes ⟨SessionStatus.running, 1, 4, 85/100, 1/2, 0, [], 0, 0⟩)) * (2/100) - 1/100 < 1/100
     ∧ 0 ≤ (fun _ => (0:ℚ)) (3 * List.length (Session.nodes ⟨SessionStatus.running, 1, 4, 85/100, 1/2, 0, [], 0, 0⟩) + 1) * (5/100)
     ∧ (fun _ => (0:ℚ)) (3 * List.length (Session.nodes ⟨SessionStatus.running, 1, 4, 85/100, 1/2, 0, [], 0, 0⟩) + 1) * (5/100) < 5/100
     ∧ (simulateRoundProgressStateful (fun _ => 0) 0
          ⟨SessionStatus.running, 1, 4, 85/100, 1/2, 0, [], 0, 0⟩ 2).accuracy ≤ 98/100
     ∧ 0 ≤ (simulateRoundProgressStateful (fun _ => 0) 0
          ⟨SessionStatus.running, 1, 4, 85/100, 1/2, 0, [], 0, 0⟩ 2).loss) :=
  c5_global_accuracy_loss (fun _ => 0) 0 5 0 2 []
    ⟨SessionStatus.running, 1, 4, 85/100, 1/2, 0, [], 0, 0⟩
    (fun _ => ⟨le_refl 0, by norm_num⟩)

/-! ## C6 — node identity/samples frame and total_samples -/

/-- C6: every `advance` (either simulator variant) leaves each node's `id`,
`name` and `samples` unchanged, and sets `total_samples` to the sum of the
nodes' (unchanged) `samples` values. -/
theorem c6_nodes_frame_total_samples (g : ℕ → ℚ) (cr mr now r : ℕ)
    (ns : List FedNode) (s : Session) :
    ((simulateRoundProgress g cr mr ns).nodes.map FedNode.id = ns.map FedNode.id
     ∧ (simulateRoundProgress g cr mr ns).nodes.map FedNode.name = ns.map FedNode.name
     ∧ (simulateRoundProgress g cr mr ns).nodes.map FedNode.samples = ns.map FedNode.samples
     ∧ (simulateRoundProgress g cr mr ns).total_samples = (ns.map FedNode.samples).sum)
    ∧ ((simulateRoundProgressStateful g now s r).nodes.map FedNode.id
          = s.nodes.map FedNode.id
       ∧ (simulateRoundProgressStateful g now s r).nodes.map FedNode.name
          = s.nodes.map FedNode.name
       ∧ (simulateRoundProgressStateful g now s r).nodes.map FedNode.samples
          = s.nodes.map FedNode.samples
       ∧ (simulateRoundProgressStateful g now s r).total_samples
          = (s.nodes.map FedNode.samples).sum) := by
  refine ⟨⟨updateNodes_map_id g 0 ns, updateNodes_map_name g 0 ns,
           updateNodes_map_samples g 0 ns, ?_⟩,
          updateNodes_map_id g 0 s.nodes, updateNodes_map_name g 0 s.nodes,
          updateNodes_map_samples g 0 s.nodes, ?_⟩
  · show ((updateNodes g 0 ns).map FedNode.samples).sum = (ns.map FedNode.samples).sum
    rw [updateNodes_map_samples]
  · show ((updateNodes g 0 s.nodes).map FedNode.samples).sum
        = (s.nodes.map FedNode.samples).sum
    rw [updateNodes_map_samples]

/-! ## C9 — the start(max_rounds=3) scenario -/

/-- C9 counterexample: `start(max_rounds=3)` does not leave `total_samples`
unset or zero until the first advance — both variants initialize it to
61700 (the sum of the seeded samples) at creation time. -/
theorem c9_counterexample :
    ((startStateful 0 "r" (some 3) (fun _ => none)).2 "r").map Session.total_samples
      = some 61700
    ∧ ((startStateful 0 "r" (some 3) (fun _ => none)).2 "r").map Session.total_samples
      ≠ some 0 :=
  ⟨rfl, by decide⟩

/-- C9 (amended): `start(max_rounds=3)` creates a session with
`current_round = 0`, status `running`, accuracy 0.85, loss 0.5, the four
seeded nodes with samples 15000/18500/12000/16200, and `total_samples`
already initialized to 61700 (their sum) at creation; the first `advance`
yields `current_round = 1` with status `running`, and the third `advance`
yields `current_round = 3` with status `completed`. -/
theorem c9_start_scenario (store : Store) (rid : String) (t0 t1 t2 t3 : ℕ)
    (g1 g2 g3 : ℕ → ℚ) :
    ((startStateful t0 rid (some 3) store).2 rid).map Session.current_round = some 0
    ∧ ((startStateful t0 rid (some 3) store).2 rid).map Session.status
        = some SessionStatus.running
    ∧ ((startStateful t0 rid (some 3) store).2 rid).map Session.accuracy = some (85/100)
    ∧ ((startStateful t0 rid (some 3) store).2 rid).map Session.loss = some (1/2)
    ∧ ((startStateful t0 rid (some 3) store).2 rid).map
        (fun u => u.nodes.map FedNode.samples) = some [15000, 18500, 12000, 16200]
    ∧ ((startStateful t0 rid (some 3) store).2 rid).map Session.total_samples = some 61700
    ∧ ((advanceStateful g1 t1 (startStateful t0 rid (some 3) store).2 (some rid)).2 rid).map
        Session.current_round = some 1
    ∧ ((advanceStateful g1 t1 (startStateful t0 rid (some 3) store).2 (some rid)).2 rid).map
        Session.status = some SessionStatus.running
    ∧ ((advanceStateful g3 t3 (advanceStateful g2 t2 (advanceStateful g1 t1
          (startStateful t0 rid (some 3) store).2 (some rid)).2 (some rid)).2
          (some rid)).2 rid).map Session.current_round = some 3
    ∧ ((advanceStateful g3 t3 (advanceStateful g2 t2 (advanceStateful g1 t1
          (startStateful t0 rid (some 3) store).2 (some rid)).2 (some rid)).2
          (some rid)).2 rid).map Session.status = some SessionStatus.completed := by
  have h0 : (startStateful t0 rid (some 3) store).2 rid = some (startSession t0 (some 3)) :=
    Store.set_self _ _ _
  have h1 := advanceStateful_run_store_mid g1 t1 (startStateful t0 rid (some 3) store).2
    rid (startSession t0 (some 3)) h0
    (show SessionStatus.running ≠ SessionStatus.paused by decide)
    (show (1 : ℕ) < 3 by decide)
  have h2 := advanceStateful_run_store_mid g2 t2
    (advanceStateful g1 t1 (startStateful t0 rid (some 3) store).2 (some rid)).2 rid
    _ h1 (show SessionStatus.running ≠ SessionStatus.paused by decide)
    (show (2 : ℕ) < 3 by decide)
  have h3 := advanceStateful_run_store_last g3 t3
    (advanceStateful g2 t2 (advanceStateful g1 t1
      (startStateful t0 rid (some 3) store).2 (some rid)).2 (some rid)).2 rid
    _ h2 (show SessionStatus.running ≠ SessionStatus.paused by decide)
    (show (2 : ℕ) < 3 by decide) (show (3 : ℕ) = 3 by decide)
  refine ⟨?_, ?_, ?_, ?_, ?_, ?_, ?_, ?_, ?_, ?_⟩
  · rw [h0]; rfl
  · rw [h0]; rfl
  · rw [h0]; rfl
  · rw [h0]; rfl
  · rw [h0]; rfl
  · rw [h0]; rfl
  · rw [h1]; rfl
  · rw [h1]; rfl
  · rw [h3]; rfl
  · rw [h3]; rfl
